import Mathlib

/-!
Shallow embedding of the jinrou_sys agent runtime (src/agent/agent.py,
src/agent/werewolf.py, src/agent/villager.py, src/agent/bodyguard.py,
src/utils/llm_client.py) together with theorems settling the claims of the
specification. Python dicts read by `.get`/`in` are modeled by structures of
optional fields or association lists; `random.choice` is modeled by an
external seed reduced modulo the sequence length, raising on an empty
sequence exactly as the library call does; wall-clock behaviour of the
timeout decorator is modeled by the worker's running time in milliseconds.
-/

namespace JinrouSys

/-- Request kinds of the aiwolf_nlp_common protocol, as dispatched in
`agent.py` (`Agent.action`, `Agent.set_packet`). -/
inductive Request where
  | NAME
  | TALK
  | WHISPER
  | VOTE
  | DIVINE
  | GUARD
  | ATTACK
  | INITIALIZE
  | DAILY_INITIALIZE
  | DAILY_FINISH
  | FINISH
  deriving DecidableEq

/-- Liveness status of an agent in the status map (`Status.ALIVE` is the
only value `get_alive_agents` keeps). -/
inductive Status where
  | ALIVE
  | DEAD
  deriving DecidableEq

/-- Game roles used by the repository (villager-aligned roles and the
werewolf; `Role.WEREWOLF` gates the whisper history in serialization). -/
inductive Role where
  | VILLAGER
  | SEER
  | MEDIUM
  | BODYGUARD
  | WEREWOLF
  | POSSESSED
  deriving DecidableEq

/-- One utterance record as received from the server (the fields of
`aiwolf_nlp_common.packet.Talk` that `agent.py` reads: `day`, `agent`,
`text`). -/
structure Talk where
  day : Nat
  agent : String
  text : String
  deriving DecidableEq

/-- The `timeout` sub-object of the server settings; `action` is the action
deadline in milliseconds (`self.setting.timeout.action`). -/
structure TimeoutSetting where
  action : Nat
  deriving DecidableEq

/-- Server-provided settings (`self.setting`), restricted to the field the
timeout decorator reads. -/
structure Setting where
  timeout : TimeoutSetting
  deriving DecidableEq

/-- Game info snapshot (`self.info`), restricted to the fields the modeled
operations read: the day counter and the status map (a dict, modeled as an
association list with unique keys). -/
structure Info where
  day : Nat
  status_map : List (String × Status)
  deriving DecidableEq

/-- The machine-readable strategy core: a Python dict produced by the
generation service (`generation_result.get("core_strategy", {})`), read with
keys `"target_vote"` / `"target_attack"`. Modeled as an association list. -/
abbrev StrategyCore := List (String × String)

/-- The mutable per-agent state of `Agent.__init__` that the modeled methods
read and write. `kill_on_timeout` holds
`bool(self.config["agent"]["kill_on_timeout"])`. -/
structure AgentState where
  request : Option Request := none
  info : Option Info := none
  setting : Option Setting := none
  talk_history : List Talk := []
  whisper_history : List Talk := []
  role : Role
  latest_strategy_core : Option StrategyCore := none
  kill_on_timeout : Bool := false

/-- An inbound packet (`aiwolf_nlp_common.packet.Packet`) as `set_packet`
reads it. A `None` history and an empty history are both falsy in the
source's `if packet.talk_history:` guard, so both are modeled by `[]`. -/
structure Packet where
  request : Request
  info : Option Info := none
  setting : Option Setting := none
  talk_history : List Talk := []
  whisper_history : List Talk := []

/-- `Agent.set_packet`: store the request, overwrite info/setting when
present, extend both histories with any carried entries, and, when the
request is `INITIALIZE`, reset both histories afterwards (the clear comes
last in the source, after the merge). -/
def set_packet (st : AgentState) (packet : Packet) : AgentState :=
  let st1 := { st with request := some packet.request }
  let st2 := match packet.info with
    | some i => { st1 with info := some i }
    | none => st1
  let st3 := match packet.setting with
    | some s => { st2 with setting := some s }
    | none => st2
  let st4 := if packet.talk_history = [] then st3
    else { st3 with talk_history := st3.talk_history ++ packet.talk_history }
  let st5 := if packet.whisper_history = [] then st4
    else { st4 with whisper_history := st4.whisper_history ++ packet.whisper_history }
  if st5.request = some Request.INITIALIZE then
    { st5 with talk_history := [], whisper_history := [] }
  else st5

/-- `Agent.get_alive_agents`: `[]` when there is no info snapshot, else the
keys of the status map whose value is `ALIVE`, in map order. -/
def get_alive_agents (st : AgentState) : List String :=
  match st.info with
  | none => []
  | some info => (info.status_map.filter (fun kv => kv.2 = Status.ALIVE)).map (fun kv => kv.1)

/-- Errors the modeled Python fragments can raise. `random.choice` raises
`IndexError` on an empty sequence. -/
inductive PyError where
  | indexError
  deriving DecidableEq

/-- `random.choice(seq)`: a uniform draw, modeled by an externally supplied
seed reduced modulo the length; raises `IndexError` when `seq` is empty. -/
def randomChoice (seed : Nat) (seq : List String) : Except PyError String :=
  match seq with
  | [] => .error .indexError
  | x :: xs => .ok ((x :: xs).get ⟨seed % (x :: xs).length, Nat.mod_lt _ (Nat.succ_pos xs.length)⟩)

/-- The guard-and-access pattern shared by `Agent.vote` and
`Werewolf.attack`:
`if self.latest_strategy_core and key in self.latest_strategy_core:` followed
by `self.latest_strategy_core[key]`. An empty dict is falsy in Python, and a
falsy or absent core yields no target. -/
def coreTarget (core : Option StrategyCore) (key : String) : Option String :=
  match core with
  | none => none
  | some c => if c = [] then none else c.lookup key

/-- The shared target-selection policy: honor the strategy-core target under
`key` exactly when it names a currently alive agent, else draw uniformly at
random from the alive list. `Agent.vote` and `Werewolf.attack` are proved
below to coincide with this. -/
def selectByCore (st : AgentState) (key : String) (seed : Nat) : Except PyError String :=
  match coreTarget st.latest_strategy_core key with
  | some target_name =>
      if target_name ∈ get_alive_agents st then .ok target_name
      else randomChoice seed (get_alive_agents st)
  | none => randomChoice seed (get_alive_agents st)

/-- `Agent.vote` (inherited unchanged by `Villager.vote`, `Bodyguard.vote`
and `Werewolf.vote`, which all delegate to `super().vote()`): use the
strategy core's `"target_vote"` when present and alive, else
`random.choice` over the alive list. -/
def vote (st : AgentState) (seed : Nat) : Except PyError String :=
  match coreTarget st.latest_strategy_core "target_vote" with
  | some target_name =>
      if target_name ∈ get_alive_agents st then .ok target_name
      else randomChoice seed (get_alive_agents st)
  | none => randomChoice seed (get_alive_agents st)

/-- `Agent.attack`: `random.choice(self.get_alive_agents())`. -/
def attack (st : AgentState) (seed : Nat) : Except PyError String :=
  randomChoice seed (get_alive_agents st)

/-- `Werewolf.attack`: use the strategy core's `"target_attack"` when present
and alive, else fall through to `super().attack()`. -/
def werewolf_attack (st : AgentState) (seed : Nat) : Except PyError String :=
  match coreTarget st.latest_strategy_core "target_attack" with
  | some target_name =>
      if target_name ∈ get_alive_agents st then .ok target_name
      else attack st seed
  | none => attack st seed

deriving instance DecidableEq for Except

/-- A dispatched handler as the deadline engine observes it: how long the
worker thread runs (wall-clock milliseconds) and what the handler ends with
(a returned value, `str | None`, or a raised exception carrying a message). -/
structure Worker where
  durationMs : Nat
  outcome : Except String (Option String)
  deriving DecidableEq

/-- The observable outcome of one wrapped call of `Agent.timeout`:
what the call returns or raises (`Except.error` models `raise`), whether the
timeout warning fired, and whether `thread.stop()` was invoked. -/
structure CallOutcome where
  call : Except String (Option String)
  timedOutWarning : Bool
  killAttempted : Bool
  deriving DecidableEq

/-- The message of the sentinel `Exception("No result")` that `res` is
initialized to in the decorator's `_wrapper`. -/
def noResultMessage : String := "No result"

/-- `Agent.timeout`'s `_wrapper`. The source computes
`timeout_value = (self.setting.timeout.action if ... else 0) // 1000`
(integer floor division to whole seconds, since `thread.join` takes
seconds). With a positive `timeout_value` it joins with that timeout: if
the worker is still alive afterwards, `res` keeps its initial
`Exception("No result")` value, the warning is logged, and `thread.stop()`
is attempted exactly when `kill_on_timeout` is set; the final
`if isinstance(res, Exception): raise res` then raises. With a zero
`timeout_value` it joins without a timeout, waiting for the worker
indefinitely. The worker is modeled as finishing inside the join window
exactly when its running time is at most the window. -/
def timeoutWrapper (actionTimeoutMs : Nat) (killOnTimeout : Bool) (w : Worker) : CallOutcome :=
  let timeout_value := actionTimeoutMs / 1000
  if timeout_value > 0 then
    if w.durationMs ≤ timeout_value * 1000 then
      { call := w.outcome, timedOutWarning := false, killAttempted := false }
    else
      { call := .error noResultMessage, timedOutWarning := true, killAttempted := killOnTimeout }
  else
    { call := w.outcome, timedOutWarning := false, killAttempted := false }

/-- The configured deadline the decorator reads:
`self.setting.timeout.action if hasattr(self, "setting") and self.setting else 0`. -/
def effectiveActionTimeoutMs (st : AgentState) : Nat :=
  match st.setting with
  | some s => s.timeout.action
  | none => 0

/-- The wrapped call as run on an agent state: deadline and kill flag are
read from the state's setting and config. -/
def timeoutRun (st : AgentState) (w : Worker) : CallOutcome :=
  timeoutWrapper (effectiveActionTimeoutMs st) st.kill_on_timeout w

/-- One entry of the history list built by `Agent._get_utterance_history_json`:
a dict with keys `day`, `agent`, `text`, `type`. The builder never writes a
`turn` key; the sort key nevertheless reads it with `x.get('turn', 0)`, which
the optional field records. -/
structure HistEntry where
  day : Nat
  agent : String
  text : String
  type : String
  turn : Option Nat := none
  deriving DecidableEq

/-- The history list before sorting: all talk entries (tagged `"Talk"`), and,
only when the agent's role is the werewolf, all whisper entries (tagged
`"Whisper"`), each keeping the source list's order. -/
def buildHistory (st : AgentState) : List HistEntry :=
  st.talk_history.map (fun t => { day := t.day, agent := t.agent, text := t.text, type := "Talk" })
    ++ (if st.role = Role.WEREWOLF then
          st.whisper_history.map
            (fun w => { day := w.day, agent := w.agent, text := w.text, type := "Whisper" })
        else [])

/-- The sort key `lambda x: (x['day'], x.get('turn', 0))`. -/
def histKey (e : HistEntry) : Nat × Nat := (e.day, e.turn.getD 0)

/-- Lexicographic comparison of key tuples, as Python compares tuples. -/
abbrev tupleLe (p q : Nat × Nat) : Prop := p.1 < q.1 ∨ (p.1 = q.1 ∧ p.2 ≤ q.2)

/-- The ordering `history.sort(key=...)` establishes: key tuples compared
lexicographically. -/
def histLe (a b : HistEntry) : Bool := decide (tupleLe (histKey a) (histKey b))

/-- `history.sort(key=lambda x: (x['day'], x.get('turn', 0)))`. CPython's
`list.sort` is a stable sort by the key, and any two stable sorts by the same
total preorder agree, so it is modeled by the standard library's stable
`mergeSort`. -/
def sortHistory (l : List HistEntry) : List HistEntry := l.mergeSort histLe

/-- `Agent._get_utterance_history_json` up to JSON rendering: `json.dumps`
serializes the list elementwise in order, so the ordered list itself is the
model of the serialization. -/
def get_utterance_history_json (st : AgentState) : List HistEntry :=
  sortHistory (buildHistory st)

/-- A parsed JSON-object response from the completion service, restricted to
the keys the agent code reads (`dict.get` with a default, or `in`). -/
structure LlmDict where
  error : Option String := none
  utterance : Option String := none
  core_strategy : Option StrategyCore := none
  is_consistent : Option Bool := none
  contradiction_type : Option String := none
  reasoning : Option String := none
  text : Option String := none
  deriving DecidableEq

/-- What one chat-completions call did, from `LLMClient.generate_response`'s
point of view (json_mode=True, as on every call of the generation loop): the
API raised, the content failed to parse as JSON, or it parsed to an object. -/
inductive ApiBehavior where
  | raises (msg : String)
  | invalidJson (msg : String)
  | parsed (d : LlmDict)

/-- `LLMClient.generate_response` with `json_mode=True`: a successful call
returns the parsed object; a `json.JSONDecodeError` is caught and turned into
`{"error": "Invalid JSON: ...", "text": "Skip"}`; any other exception is
caught and turned into `{"error": str(e), "text": "Skip"}`. The method is a
total function: no failure of the service propagates as an exception. -/
def generate_response (api : ApiBehavior) : LlmDict :=
  match api with
  | .parsed d => d
  | .invalidJson m => { error := some ("Invalid JSON: " ++ m), text := some "Skip" }
  | .raises m => { error := some m, text := some "Skip" }

/-- The environment's behaviour on the sequence of LLM calls one invocation
of `_generate_llm_utterance` makes: the single generation call, then the
n-th consistency check and the n-th regeneration call. Prompt construction
(`get_generation_prompt` and friends) only shapes the text sent out and does
not influence the agent's control flow, so it is absorbed into the oracle's
indexing. -/
structure LlmOracle where
  genApi : ApiBehavior
  checkApi : Nat → ApiBehavior
  reviseApi : Nat → ApiBehavior

/-- `MAX_REGENERATION_ATTEMPTS = 3` from agent.py. -/
def MAX_REGENERATION_ATTEMPTS : Nat := 3

/-- The `for attempt in range(MAX_REGENERATION_ATTEMPTS)` loop body of
`_generate_llm_utterance`, with `attempt` the current iteration index and
`remaining` the iterations left. Returns the loop's result together with the
number of consistency-check calls and of regeneration calls it performed.
Each iteration checks consistency (`check_result.get("is_consistent",
False)`); a consistent verdict returns the current text; otherwise the
reviser is invoked, its `utterance` (default `"Skip"`) replaces the current
text, and a `"Skip"` revision breaks out early; a exhausted range falls
through to `return "Skip"`. -/
def revisionLoop (oracle : LlmOracle) (current : String) (attempt remaining : Nat) :
    String × Nat × Nat :=
  match remaining with
  | 0 => ("Skip", 0, 0)
  | r + 1 =>
    let check_result := generate_response (oracle.checkApi attempt)
    let is_consistent := check_result.is_consistent.getD false
    if is_consistent then (current, 1, 0)
    else
      let regeneration_result := generate_response (oracle.reviseApi attempt)
      let next := regeneration_result.utterance.getD "Skip"
      if next = "Skip" then ("Skip", 1, 1)
      else
        let rest := revisionLoop oracle next (attempt + 1) r
        (rest.1, rest.2.1 + 1, rest.2.2 + 1)

/-- The observable outcome of one invocation of `_generate_llm_utterance`:
the returned text, the value of `self.latest_strategy_core` after the call
(the only agent state the method writes), and how many generation,
consistency-check and regeneration calls were made. -/
structure GenOutcome where
  result : String
  latest_strategy_core : Option StrategyCore
  genCalls : Nat
  verifyCalls : Nat
  reviseCalls : Nat
  deriving DecidableEq

/-- `Agent._generate_llm_utterance`. With no info snapshot it returns
`"Skip"` at once, before the line `self.latest_strategy_core = None`, so the
stored core is left untouched and no service call is made. Otherwise the
core is cleared, the generation service is called once; an `"error"` key in
the response returns `"Skip"` immediately (core left cleared). Otherwise the
utterance (default `"Skip"`) and the core (`core_strategy`, default `{}`)
are taken from the response and the bounded revision loop runs. -/
def generate_llm_utterance (st : AgentState) (oracle : LlmOracle) : GenOutcome :=
  if st.info = none then
    { result := "Skip", latest_strategy_core := st.latest_strategy_core,
      genCalls := 0, verifyCalls := 0, reviseCalls := 0 }
  else
    let generation_result := generate_response oracle.genApi
    if generation_result.error.isSome then
      { result := "Skip", latest_strategy_core := none,
        genCalls := 1, verifyCalls := 0, reviseCalls := 0 }
    else
      let current_utterance_text := generation_result.utterance.getD "Skip"
      let core := generation_result.core_strategy.getD []
      let looped := revisionLoop oracle current_utterance_text 0 MAX_REGENERATION_ATTEMPTS
      { result := looped.1, latest_strategy_core := some core,
        genCalls := 1, verifyCalls := looped.2.1, reviseCalls := looped.2.2 }

/-! Theorems settling the claims. -/

/-- C1 (amended): for every handler and every configured deadline of at least
1000 ms (so that the source's floor division `// 1000` yields a positive
whole-second join window), if the worker has not finished when the deadline
elapses, the wrapped call fails with the "No result" error; the failure is
identical for either value of the kill flag, and the flag controls exactly
whether a forced termination of the worker is attempted. -/
theorem timeout_expiry_fails_uniformly (ms : Nat) (w : Worker)
    (hms : 1000 ≤ ms) (hlate : ms < w.durationMs) :
    (∀ kill, (timeoutWrapper ms kill w).call = .error noResultMessage) ∧
      (∀ kill kill', (timeoutWrapper ms kill w).call = (timeoutWrapper ms kill' w).call) ∧
      (∀ kill, (timeoutWrapper ms kill w).killAttempted = kill) ∧
      (∀ kill, (timeoutWrapper ms kill w).timedOutWarning = true) := by
  have htv : 0 < ms / 1000 := Nat.div_pos hms (by norm_num)
  have hwin : ms / 1000 * 1000 ≤ ms := Nat.div_mul_le_self ms 1000
  have hlate2 : ¬ w.durationMs ≤ ms / 1000 * 1000 := by omega
  refine ⟨fun kill => ?_, fun kill kill' => ?_, fun kill => ?_, fun kill => ?_⟩ <;>
    simp [timeoutWrapper, htv, hlate2]

/-- C1 witness: deadline 2000 ms, worker taking 2500 ms with a successful
outcome it never gets to deliver. -/
theorem timeout_expiry_fails_uniformly_witness :
    (∀ kill, (timeoutWrapper 2000 kill ⟨2500, .ok (some "v")⟩).call
        = .error noResultMessage) ∧
      (∀ kill kill', (timeoutWrapper 2000 kill ⟨2500, .ok (some "v")⟩).call
        = (timeoutWrapper 2000 kill' ⟨2500, .ok (some "v")⟩).call) ∧
      (∀ kill, (timeoutWrapper 2000 kill ⟨2500, .ok (some "v")⟩).killAttempted = kill) ∧
      (∀ kill, (timeoutWrapper 2000 kill ⟨2500, .ok (some "v")⟩).timedOutWarning = true) :=
  timeout_expiry_fails_uniformly 2000 ⟨2500, .ok (some "v")⟩ (by norm_num) (by norm_num)

/-- C1 counterexample: 100 ms is a positive configured deadline and the
worker, taking 200 ms, has not finished when it elapses; yet the wrapped
call returns the worker's value instead of failing with "No result",
because `100 // 1000 = 0` selects the unbounded-wait branch. -/
theorem timeout_subsecond_deadline_counterexample :
    0 < 100 ∧ 100 < 200 ∧
      (timeoutWrapper 100 false ⟨200, .ok (some "x")⟩).call = .ok (some "x") ∧
      (timeoutWrapper 100 true ⟨200, .ok (some "x")⟩).call = .ok (some "x") ∧
      (timeoutWrapper 100 false ⟨200, .ok (some "x")⟩).call ≠ .error noResultMessage := by
  refine ⟨by norm_num, by norm_num, rfl, rfl, by decide⟩

/-- C4: the engine does not enforce the spec's 100 ms deadline scenario:
`100 // 1000 = 0`, so the engine joins without any timeout and the wrapped
call returns the handler's own result (here delivered after 200 ms) with
either kill-flag value, instead of failing with the "No result" error; no
timeout warning fires and no termination is attempted. -/
theorem hundred_ms_deadline_not_enforced :
    (timeoutWrapper 100 false ⟨200, .ok (some "vote")⟩).call = .ok (some "vote") ∧
      (timeoutWrapper 100 true ⟨200, .ok (some "vote")⟩).call = .ok (some "vote") ∧
      (timeoutWrapper 100 true ⟨200, .ok (some "vote")⟩).timedOutWarning = false ∧
      (timeoutWrapper 100 true ⟨200, .ok (some "vote")⟩).killAttempted = false :=
  ⟨rfl, rfl, rfl, rfl⟩

/-- C7: an Initialize packet leaves both history sequences empty after
`set_packet`, whatever history entries the packet itself carries: the merge
happens first and the clear afterwards. -/
theorem initialize_clears_histories (st : AgentState) (p : Packet)
    (h : p.request = Request.INITIALIZE) :
    (set_packet st p).talk_history = [] ∧ (set_packet st p).whisper_history = [] := by
  rcases p with ⟨req, info, setg, th, wh⟩
  simp only at h
  subst h
  cases info <;> cases setg <;> simp [set_packet] <;> split_ifs <;> simp_all

/-- C7 witness: an Initialize packet that itself carries a fresh talk entry
and a fresh whisper entry, applied to a state with prior history. -/
theorem initialize_clears_histories_witness :
    (set_packet
        { role := Role.VILLAGER, talk_history := [⟨0, "A", "old"⟩] }
        { request := Request.INITIALIZE,
          talk_history := [⟨1, "B", "new talk"⟩],
          whisper_history := [⟨1, "C", "new whisper"⟩] }).talk_history = [] ∧
      (set_packet
        { role := Role.VILLAGER, talk_history := [⟨0, "A", "old"⟩] }
        { request := Request.INITIALIZE,
          talk_history := [⟨1, "B", "new talk"⟩],
          whisper_history := [⟨1, "C", "new whisper"⟩] }).whisper_history = [] :=
  initialize_clears_histories _ _ rfl

/-- C10: with no game-info snapshot the generation loop returns "Skip" at
once: no generation, verifier or reviser call is made and the stored
strategy core is left exactly as it was. -/
theorem no_info_skips_without_clearing (st : AgentState) (o : LlmOracle)
    (h : st.info = none) :
    generate_llm_utterance st o =
      { result := "Skip", latest_strategy_core := st.latest_strategy_core,
        genCalls := 0, verifyCalls := 0, reviseCalls := 0 } := by
  simp [generate_llm_utterance, h]

/-- Concrete state for the C10 witness: no info snapshot, a stored core from
a previous cycle. -/
def c10State : AgentState :=
  { role := Role.SEER, info := none, latest_strategy_core := some [("target_vote", "A")] }

/-- Concrete oracle for the C10 witness. -/
def c10Oracle : LlmOracle :=
  { genApi := .parsed {}, checkApi := fun _ => .parsed {}, reviseApi := fun _ => .parsed {} }

/-- C10 witness: the prior core survives and every call counter is zero. -/
theorem no_info_skips_without_clearing_witness :
    generate_llm_utterance c10State c10Oracle =
      { result := "Skip", latest_strategy_core := some [("target_vote", "A")],
        genCalls := 0, verifyCalls := 0, reviseCalls := 0 } :=
  no_info_skips_without_clearing c10State c10Oracle rfl

/-- C5: if the initial generation call reports an error — which is how
`generate_response` surfaces both a raised API exception and a non-JSON
response, never letting an exception escape — the loop returns the literal
"Skip" immediately: one generation call, no retry of it, and no verifier or
reviser call. -/
theorem generation_error_immediate_skip (st : AgentState) (o : LlmOracle)
    (hinfo : st.info ≠ none)
    (herr : (generate_response o.genApi).error.isSome = true) :
    generate_llm_utterance st o =
      { result := "Skip", latest_strategy_core := none,
        genCalls := 1, verifyCalls := 0, reviseCalls := 0 } ∧
      (∀ m, (generate_response (ApiBehavior.raises m)).error.isSome = true) ∧
      (∀ m, (generate_response (ApiBehavior.invalidJson m)).error.isSome = true) := by
  refine ⟨?_, fun m => rfl, fun m => rfl⟩
  simp [generate_llm_utterance, hinfo, herr]

/-- Concrete state for the C5 witness. -/
def c5State : AgentState :=
  { role := Role.VILLAGER, info := some { day := 1, status_map := [("A", Status.ALIVE)] } }

/-- Concrete oracle for the C5 witness: the generation call raises inside the
client and is absorbed into an error dict. -/
def c5Oracle : LlmOracle :=
  { genApi := .raises "APIConnectionError", checkApi := fun _ => .parsed {},
    reviseApi := fun _ => .parsed {} }

/-- C5 witness: a raised API error yields "Skip" with no verifier or reviser
call. -/
theorem generation_error_immediate_skip_witness :
    generate_llm_utterance c5State c5Oracle =
      { result := "Skip", latest_strategy_core := none,
        genCalls := 1, verifyCalls := 0, reviseCalls := 0 } ∧
      (∀ m, (generate_response (ApiBehavior.raises m)).error.isSome = true) ∧
      (∀ m, (generate_response (ApiBehavior.invalidJson m)).error.isSome = true) :=
  generation_error_immediate_skip c5State c5Oracle (by decide) rfl

/-- C6 (amended): on every invocation of the generation loop that has a
game-info snapshot the strategy core is wholly replaced — cleared before
generation, left `none` when generation fails, otherwise overwritten with
the fresh response core — and in no case merged with the prior core: the
resulting core does not depend on the state's previous core at all. When
the snapshot is absent, the loop returns before the clearing line and the
prior core persists. -/
theorem strategy_core_replaced_when_info_present (st : AgentState) (o : LlmOracle)
    (hinfo : st.info ≠ none) :
    (generate_llm_utterance st o).latest_strategy_core =
      (if (generate_response o.genApi).error.isSome then none
       else some ((generate_response o.genApi).core_strategy.getD [])) := by
  by_cases h : (generate_response o.genApi).error.isSome <;>
    simp [generate_llm_utterance, hinfo, h]

/-- Concrete state for the C6 witness: info present, a stale core stored. -/
def c6bState : AgentState :=
  { role := Role.VILLAGER, info := some { day := 1, status_map := [("A", Status.ALIVE)] },
    latest_strategy_core := some [("target_vote", "A")] }

/-- Concrete oracle for the C6 witness: generation succeeds with a fresh
core naming "B". -/
def c6bOracle : LlmOracle :=
  { genApi := .parsed { utterance := some "Hi", core_strategy := some [("target_vote", "B")] },
    checkApi := fun _ => .parsed { is_consistent := some true },
    reviseApi := fun _ => .parsed {} }

/-- C6 witness: the stale core naming "A" is wholly replaced by the fresh
core naming "B". -/
theorem strategy_core_replaced_witness :
    (generate_llm_utterance c6bState c6bOracle).latest_strategy_core
      = some [("target_vote", "B")] :=
  strategy_core_replaced_when_info_present c6bState c6bOracle (by decide)

/-- Concrete state for the C6 counterexample: no info snapshot, prior core
stored. -/
def c6State : AgentState :=
  { role := Role.VILLAGER, info := none, latest_strategy_core := some [("target_vote", "A")] }

/-- Concrete oracle for the C6 counterexample. -/
def c6Oracle : LlmOracle :=
  { genApi := .parsed { utterance := some "Hi", core_strategy := some [("target_vote", "B")] },
    checkApi := fun _ => .parsed { is_consistent := some true },
    reviseApi := fun _ => .parsed {} }

/-- C6 counterexample: an invocation of the generation loop (here on a state
without an info snapshot, which ends in the "Skip" failure) after which the
stored strategy core is neither cleared to empty nor replaced: the prior
cycle's core persists unchanged. -/
theorem strategy_core_counterexample :
    c6State.latest_strategy_core = some [("target_vote", "A")] ∧
      (generate_llm_utterance c6State c6Oracle).latest_strategy_core
        = some [("target_vote", "A")] ∧
      (generate_llm_utterance c6State c6Oracle).latest_strategy_core ≠ none := by
  refine ⟨rfl, rfl, by decide⟩

/-- Auxiliary: `random.choice` of a nonempty sequence returns one of its
members. -/
theorem randomChoice_mem (seed : Nat) (seq : List String) (h : seq ≠ []) :
    ∃ v, randomChoice seed seq = .ok v ∧ v ∈ seq := by
  match seq with
  | [] => exact absurd rfl h
  | x :: xs => exact ⟨_, rfl, List.get_mem _ _ _⟩

/-- C3: `vote` and `werewolf_attack` honor the current strategy core's
target (under `"target_vote"` and `"target_attack"` respectively) exactly
when it names a currently alive agent, returning precisely that identifier;
when the target is absent from the core or not alive they return the
uniform random draw over the alive list; and both selections are
instances of the one shared policy, differing only in the key. -/
theorem target_selection_policy (st : AgentState) (seed : Nat) :
    (∀ t, coreTarget st.latest_strategy_core "target_vote" = some t →
        t ∈ get_alive_agents st → vote st seed = .ok t) ∧
      ((∀ t, coreTarget st.latest_strategy_core "target_vote" = some t →
          t ∉ get_alive_agents st) →
        vote st seed = randomChoice seed (get_alive_agents st)) ∧
      (∀ t, coreTarget st.latest_strategy_core "target_attack" = some t →
        t ∈ get_alive_agents st → werewolf_attack st seed = .ok t) ∧
      ((∀ t, coreTarget st.latest_strategy_core "target_attack" = some t →
          t ∉ get_alive_agents st) →
        werewolf_attack st seed = randomChoice seed (get_alive_agents st)) ∧
      vote st seed = selectByCore st "target_vote" seed ∧
      werewolf_attack st seed = selectByCore st "target_attack" seed := by
  refine ⟨?_, ?_, ?_, ?_, ?_, ?_⟩
  · intro t ht hmem
    simp [vote, ht, hmem]
  · intro hdead
    cases hc : coreTarget st.latest_strategy_core "target_vote" with
    | none => simp [vote, hc]
    | some t => simp [vote, hc, hdead t hc]
  · intro t ht hmem
    simp [werewolf_attack, ht, hmem]
  · intro hdead
    cases hc : coreTarget st.latest_strategy_core "target_attack" with
    | none => simp [werewolf_attack, attack, hc]
    | some t => simp [werewolf_attack, attack, hc, hdead t hc]
  · cases hc : coreTarget st.latest_strategy_core "target_vote" <;>
      simp [vote, selectByCore, hc]
  · cases hc : coreTarget st.latest_strategy_core "target_attack" <;>
      simp [werewolf_attack, attack, selectByCore, hc]

/-- Concrete state for the C3 witness: B and A alive, C dead, core targets
"B" for the vote and "A" for the attack. -/
def c3State : AgentState :=
  { role := Role.WEREWOLF,
    info := some ⟨2, [("A", Status.ALIVE), ("B", Status.ALIVE), ("C", Status.DEAD)]⟩,
    latest_strategy_core := some [("target_vote", "B"), ("target_attack", "A")] }

/-- C3 witness: under the concrete core the vote deterministically returns
"B" and the attack "A". -/
theorem target_selection_policy_witness :
    vote c3State 0 = .ok "B" ∧ werewolf_attack c3State 0 = .ok "A" :=
  ⟨(target_selection_policy c3State 0).1 "B" (by decide) (by decide),
   (target_selection_policy c3State 0).2.2.1 "A" (by decide) (by decide)⟩

/-- C8 (amended): for every role and every state whose alive-set is
nonempty, `vote`, the base `attack` and the werewolf `attack` return a
member of the alive-set; when the alive-set is empty the uniform-random
fallback raises `IndexError` instead of returning a value. -/
theorem vote_attack_members_of_alive (st : AgentState) (seed : Nat)
    (h : get_alive_agents st ≠ []) :
    (∃ v, vote st seed = .ok v ∧ v ∈ get_alive_agents st) ∧
      (∃ v, attack st seed = .ok v ∧ v ∈ get_alive_agents st) ∧
      (∃ v, werewolf_attack st seed = .ok v ∧ v ∈ get_alive_agents st) := by
  refine ⟨?_, ?_, ?_⟩
  · cases hc : coreTarget st.latest_strategy_core "target_vote" with
    | none => simpa [vote, hc] using randomChoice_mem seed _ h
    | some t =>
      by_cases hmem : t ∈ get_alive_agents st
      · exact ⟨t, by simp [vote, hc, hmem], hmem⟩
      · simpa [vote, hc, hmem] using randomChoice_mem seed _ h
  · simpa [attack] using randomChoice_mem seed _ h
  · cases hc : coreTarget st.latest_strategy_core "target_attack" with
    | none => simpa [werewolf_attack, attack, hc] using randomChoice_mem seed _ h
    | some t =>
      by_cases hmem : t ∈ get_alive_agents st
      · exact ⟨t, by simp [werewolf_attack, hc, hmem], hmem⟩
      · simpa [werewolf_attack, attack, hc, hmem] using randomChoice_mem seed _ h

/-- Concrete state for the C8 witness: one alive agent. -/
def c8bState : AgentState :=
  { role := Role.WEREWOLF, info := some { day := 1, status_map := [("A", Status.ALIVE)] } }

/-- C8 witness: with a nonempty alive-set every selection returns one of its
members. -/
theorem vote_attack_members_witness :
    (∃ v, vote c8bState 7 = .ok v ∧ v ∈ get_alive_agents c8bState) ∧
      (∃ v, attack c8bState 7 = .ok v ∧ v ∈ get_alive_agents c8bState) ∧
      (∃ v, werewolf_attack c8bState 7 = .ok v ∧ v ∈ get_alive_agents c8bState) :=
  vote_attack_members_of_alive c8bState 7 (by decide)

/-- Concrete state for the C8 counterexample: a status map with no alive
agent; the strategy core even names targets, but they are dead. -/
def c8State : AgentState :=
  { role := Role.WEREWOLF,
    info := some { day := 3, status_map := [("A", Status.DEAD), ("B", Status.DEAD)] },
    latest_strategy_core := some [("target_vote", "A"), ("target_attack", "B")] }

/-- C8 counterexample: with an empty alive-set neither `vote` nor `attack`
returns a member of it — the `random.choice` fallback raises `IndexError`
on the empty sequence. -/
theorem vote_attack_empty_alive_counterexample :
    get_alive_agents c8State = [] ∧
      vote c8State 0 = .error PyError.indexError ∧
      attack c8State 0 = .error PyError.indexError ∧
      werewolf_attack c8State 0 = .error PyError.indexError := by
  refine ⟨rfl, by decide, by decide, by decide⟩

/-- Auxiliary: one inconsistent iteration whose revision is not "Skip"
recurses with the revised text and adds one verifier and one reviser call. -/
theorem revisionLoop_inconsistent_step (o : LlmOracle) (cur : String) (a r : Nat)
    (hc : (generate_response (o.checkApi a)).is_consistent.getD false = false)
    (hr : (generate_response (o.reviseApi a)).utterance.getD "Skip" ≠ "Skip") :
    revisionLoop o cur a (r + 1) =
      ((revisionLoop o ((generate_response (o.reviseApi a)).utterance.getD "Skip")
          (a + 1) r).1,
       (revisionLoop o ((generate_response (o.reviseApi a)).utterance.getD "Skip")
          (a + 1) r).2.1 + 1,
       (revisionLoop o ((generate_response (o.reviseApi a)).utterance.getD "Skip")
          (a + 1) r).2.2 + 1) := by
  simp [revisionLoop, hc, hr]

/-- C2 (amended): if the consistency verifier returns an inconsistent
verdict on all MAX_REGENERATION_ATTEMPTS = 3 iterations and no revision
equals "Skip", the reviser is invoked exactly three times — once per
iteration, the loop body revising even on the final attempt, whose output
is then discarded — the verifier exactly three times, and the loop returns
the fallback literal "Skip". -/
theorem three_inconsistent_verdicts_three_revisions (st : AgentState) (o : LlmOracle)
    (hinfo : st.info ≠ none)
    (hok : (generate_response o.genApi).error = none)
    (hchk : ∀ i, i < 3 → (generate_response (o.checkApi i)).is_consistent.getD false = false)
    (hrev : ∀ i, i < 3 → (generate_response (o.reviseApi i)).utterance.getD "Skip" ≠ "Skip") :
    (generate_llm_utterance st o).result = "Skip" ∧
      (generate_llm_utterance st o).verifyCalls = 3 ∧
      (generate_llm_utterance st o).reviseCalls = 3 ∧
      (generate_llm_utterance st o).genCalls = 1 := by
  have hloop : ∀ cur, revisionLoop o cur 0 3 = ("Skip", 3, 3) := by
    intro cur
    rw [show (3 : Nat) = 2 + 1 from rfl,
      revisionLoop_inconsistent_step o cur 0 2 (hchk 0 (by norm_num)) (hrev 0 (by norm_num)),
      show (2 : Nat) = 1 + 1 from rfl,
      revisionLoop_inconsistent_step o _ 1 1 (hchk 1 (by norm_num)) (hrev 1 (by norm_num)),
      show (1 : Nat) = 0 + 1 from rfl,
      revisionLoop_inconsistent_step o _ 2 0 (hchk 2 (by norm_num)) (hrev 2 (by norm_num))]
    simp [revisionLoop]
  have herr : (generate_response o.genApi).error.isSome = false := by simp [hok]
  simp [generate_llm_utterance, hinfo, herr, MAX_REGENERATION_ATTEMPTS, hloop]

/-- Concrete state for the C2 scenario. -/
def c2State : AgentState :=
  { role := Role.VILLAGER, info := some ⟨1, [("A", Status.ALIVE)]⟩ }

/-- Concrete oracle for the C2 scenario: generation succeeds, every verdict
is inconsistent, every revision is a fresh non-"Skip" text. -/
def c2Oracle : LlmOracle :=
  { genApi := .parsed { utterance := some "Hello", core_strategy := some [] },
    checkApi := fun _ => .parsed { is_consistent := some false },
    reviseApi := fun _ => .parsed { utterance := some "Revised" } }

/-- C2 witness: the concrete all-inconsistent scenario returns "Skip" after
three verifier and three reviser calls. -/
theorem three_inconsistent_verdicts_witness :
    (generate_llm_utterance c2State c2Oracle).result = "Skip" ∧
      (generate_llm_utterance c2State c2Oracle).verifyCalls = 3 ∧
      (generate_llm_utterance c2State c2Oracle).reviseCalls = 3 ∧
      (generate_llm_utterance c2State c2Oracle).genCalls = 1 :=
  three_inconsistent_verdicts_three_revisions c2State c2Oracle (by decide) rfl
    (fun i _ => rfl) (fun i _ => by simp [c2Oracle, generate_response])

/-- Concrete state for the C2 counterexample. -/
def c2cState : AgentState :=
  { role := Role.VILLAGER, info := some ⟨1, [("A", Status.ALIVE)]⟩ }

/-- Concrete oracle for the C2 counterexample: same all-inconsistent,
never-"Skip" scenario. -/
def c2cOracle : LlmOracle :=
  { genApi := .parsed { utterance := some "Opening claim", core_strategy := some [] },
    checkApi := fun _ => .parsed { is_consistent := some false },
    reviseApi := fun _ => .parsed { utterance := some "Patched claim" } }

/-- C2 counterexample: under the claim's own scenario — verifier
inconsistent on attempts 0, 1 and 2, no revision equal to "Skip" — the
reviser is invoked three times, not twice (the result is still the
fallback "Skip"). -/
theorem three_inconsistent_verdicts_counterexample :
    (generate_response (c2cOracle.checkApi 0)).is_consistent.getD false = false ∧
      (generate_response (c2cOracle.checkApi 1)).is_consistent.getD false = false ∧
      (generate_response (c2cOracle.checkApi 2)).is_consistent.getD false = false ∧
      (generate_response (c2cOracle.reviseApi 0)).utterance.getD "Skip" ≠ "Skip" ∧
      (generate_response (c2cOracle.reviseApi 1)).utterance.getD "Skip" ≠ "Skip" ∧
      (generate_response (c2cOracle.reviseApi 2)).utterance.getD "Skip" ≠ "Skip" ∧
      (generate_llm_utterance c2cState c2cOracle).result = "Skip" ∧
      (generate_llm_utterance c2cState c2cOracle).reviseCalls = 3 ∧
      (generate_llm_utterance c2cState c2cOracle).reviseCalls ≠ 2 := by
  refine ⟨rfl, rfl, rfl, by decide, by decide, by decide, by decide, by decide, by decide⟩

/-- Auxiliary: the key comparison is transitive. -/
theorem histLe_trans : ∀ (a b c : HistEntry), histLe a b → histLe b c → histLe a c := by
  intro a b c hab hbc
  simp only [histLe, tupleLe, decide_eq_true_eq] at hab hbc ⊢
  omega

/-- Auxiliary: the key comparison is total. -/
theorem histLe_total : ∀ (a b : HistEntry), histLe a b || histLe b a := by
  intro a b
  simp only [histLe, tupleLe, Bool.or_eq_true, decide_eq_true_eq]
  omega

/-- Auxiliary: the stable sort preserves the relative order of the entries
of any one key tuple: filtering the sorted history down to a key gives
exactly the same list as filtering the input. -/
theorem sortHistory_filter_key (l : List HistEntry) (k : Nat × Nat) :
    (sortHistory l).filter (fun e => decide (histKey e = k)) =
      l.filter (fun e => decide (histKey e = k)) := by
  have hpair : (l.filter (fun e => decide (histKey e = k))).Pairwise
      (fun a b => histLe a b = true) := by
    apply List.pairwise_of_forall_mem_list
    intro a ha b hb
    have ha' := List.of_mem_filter ha
    have hb' := List.of_mem_filter hb
    simp only [decide_eq_true_eq] at ha' hb'
    simp [histLe, tupleLe, decide_eq_true_eq, ha', hb']
  have hsub : List.Sublist (l.filter (fun e => decide (histKey e = k))) (sortHistory l) :=
    List.sublist_mergeSort histLe_trans histLe_total hpair (List.filter_sublist l)
  have hperm : List.Perm ((sortHistory l).filter (fun e => decide (histKey e = k)))
      (l.filter (fun e => decide (histKey e = k))) :=
    (List.mergeSort_perm l histLe).filter _
  have hself : (l.filter (fun e => decide (histKey e = k))).filter
        (fun e => decide (histKey e = k))
      = l.filter (fun e => decide (histKey e = k)) := by
    apply List.filter_eq_self.mpr
    intro a ha
    exact (List.mem_filter.mp ha).2
  have hsub2 : List.Sublist (l.filter (fun e => decide (histKey e = k)))
      ((sortHistory l).filter (fun e => decide (histKey e = k))) := by
    have h2 := hsub.filter (fun e => decide (histKey e = k))
    rwa [hself] at h2
  exact (hsub2.eq_of_length hperm.length_eq.symm).symm

/-- Auxiliary: the history builder never writes a `turn` key, so the sort
key of every built entry is `(day, 0)` and equal keys mean equal days. -/
theorem buildHistory_turn_none (st : AgentState) :
    ∀ e ∈ buildHistory st, e.turn = none := by
  intro e he
  simp only [buildHistory, List.mem_append, List.mem_map] at he
  rcases he with ⟨t, _, rfl⟩ | he
  · rfl
  · split at he
    · simp only [List.mem_map] at he
      rcases he with ⟨t, _, rfl⟩
      rfl
    · simp at he

/-- C9: the serialized history is ordered by the key
`(day, turn hint with default 0)` compared lexicographically, and the
ordering is stable: for every key tuple — and in particular for every fixed
day, the builder writing no turn keys — the records of that key appear in
the serialized output in exactly their original relative insertion order. -/
theorem history_serialization_sorted_and_stable (st : AgentState) :
    List.Pairwise (fun a b => histLe a b = true) (get_utterance_history_json st) ∧
      (∀ k : Nat × Nat,
        (get_utterance_history_json st).filter (fun e => decide (histKey e = k)) =
          (buildHistory st).filter (fun e => decide (histKey e = k))) ∧
      (∀ d : Nat,
        (get_utterance_history_json st).filter (fun e => decide (e.day = d)) =
          (buildHistory st).filter (fun e => decide (e.day = d))) := by
  refine ⟨?_, ?_, ?_⟩
  · exact List.sorted_mergeSort histLe_trans histLe_total (buildHistory st)
  · intro k
    exact sortHistory_filter_key (buildHistory st) k
  · intro d
    have h1 : ∀ e ∈ buildHistory st,
        decide (e.day = d) = decide (histKey e = (d, 0)) := by
      intro e he
      have ht := buildHistory_turn_none st e he
      refine decide_eq_decide.mpr ?_
      simp [histKey, ht, Prod.ext_iff]
    have h2 : ∀ e ∈ get_utterance_history_json st,
        decide (e.day = d) = decide (histKey e = (d, 0)) := by
      intro e he
      simp only [get_utterance_history_json, sortHistory, List.mem_mergeSort] at he
      exact h1 e he
    rw [List.filter_congr h2, List.filter_congr h1]
    exact sortHistory_filter_key (buildHistory st) (d, 0)

end JinrouSys
